import Mathlib

set_option linter.unusedVariables false

/-!
Verification development for the LDAR-Sim repository (IM3S/LDAR_Sim).

Each Python function relevant to the checked properties is shallowly embedded
as an executable Lean definition: machine floats become exact rationals,
datetimes become minute or day counts (integers), Python dictionaries become
association lists or records, and code paths that raise Python exceptions
return Except values.  Definitions mirror the structure of the source files
they embed (file and line references are given in the doc comments).
-/

namespace LdarSim

/-- Python exceptions that the embedded code paths can raise. -/
inductive PyErr where
  | typeError
  | indexError
  | keyError
  | exitCalled
deriving DecidableEq, Repr

/-- Python int() truncation (toward zero) of a rational. -/
def pyInt (q : ℚ) : ℤ :=
  if 0 ≤ q then ⌊q⌋ else ⌈q⌉

/-- Python str.lower restricted to ASCII, as used on unit names. -/
def pyLower (s : String) : String :=
  String.mk (s.data.map Char.toLower)

/-! ## satellite.check_detection (model_code/satellite.py lines 195-212)

The wind speed U and the cumulative site rate are rationals.  The source
computes the wind-dependent minimum detectable rate and then immediately
overwrites it with 0 (line 210, commented "set MDL to 0").  The let-shadowing
below mirrors that overwrite. -/

/-- Embeds satellite.check_detection: site_cum_rate is compared against the
final value of Q_min, which the source resets to 0 after computing the
wind-dependent formula. -/
def check_detection (U site_cum_rate : ℚ) : Bool :=
  let Q_min : ℚ := 5.79 * (1.39 / U)
  let Q_min : ℚ := 0
  decide (site_cum_rate > Q_min)

/-- The wind-dependent minimum detectable rate named by the spec for the
satellite sensor. -/
def Q_min_formula (U : ℚ) : ℚ :=
  5.79 * (1.39 / U)

/-! ## Schedule.check_visit_time (methods/deployment/mobile_crew.py lines 131-195)

All times are in minutes.  mins_left_in_day is computed by the source from
the crew state (allowed_end_time minus current time); here it is an input. -/

/-- Return value of check_visit_time (the Python dict of line 187). -/
structure VisitTimes where
  LDAR_mins : ℚ
  go_to_site : Bool
  LDAR_mins_onsite : ℚ
  travel_to_mins : ℚ
  travel_home_mins : ℚ
  remaining_mins : ℚ
deriving DecidableEq, Repr

/-- Embeds Schedule.check_visit_time: the if/elif chain selecting go_to_site
and LDAR_mins_onsite, then remaining_mins and LDAR_mins (lines 150-195). -/
def check_visit_time (survey_mins travel_to_mins travel_home_mins mins_left_in_day : ℚ) :
    VisitTimes :=
  let p : Bool × ℚ :=
    if travel_to_mins ≥ mins_left_in_day then
      (false, 0)
    else if travel_to_mins + travel_home_mins ≥ mins_left_in_day then
      (false, 0)
    else if travel_to_mins + travel_home_mins + survey_mins ≤ mins_left_in_day then
      (true, survey_mins)
    else if travel_to_mins + survey_mins ≤ mins_left_in_day then
      (true, survey_mins)
    else if travel_to_mins + survey_mins > mins_left_in_day then
      (true, mins_left_in_day - travel_to_mins)
    else
      (true, survey_mins)
  let go_to_site := p.1
  let LDAR_mins_onsite := p.2
  let remaining_mins := survey_mins - LDAR_mins_onsite
  let LDAR_mins := travel_to_mins + LDAR_mins_onsite
  { LDAR_mins := LDAR_mins
    go_to_site := go_to_site
    LDAR_mins_onsite := LDAR_mins_onsite
    travel_to_mins := travel_to_mins
    travel_home_mins := travel_home_mins
    remaining_mins := remaining_mins }

/-! ## WeatherLookup.deployment_days (weather/weather_lookup.py lines 75-151)

The weather grids are total functions of (day, lat, lon); the envelope
parameters follow Python truthiness (a value of 0 is falsy, selecting the
built-in [0, 0] envelope). -/

/-- Weather state held by WeatherLookup: temperature (deg C), wind magnitude
(m/s) and precipitation (mm/day) grids indexed by (day, lat, lon). -/
structure WeatherState where
  temps : ℕ → ℕ → ℕ → ℚ
  winds : ℕ → ℕ → ℕ → ℚ
  precip : ℕ → ℕ → ℕ → ℚ

/-- Per-method weather envelope parameters (min_temp, max_wind, max_precip),
read from parameters['methods'][method_name]. -/
structure MethodWeather where
  min_temp : ℚ
  max_wind : ℚ
  max_precip : ℚ
deriving DecidableEq, Repr

/-- The six resolved bounds of weather_lookup.py lines 85-117. -/
structure WeatherBounds where
  min_temp : ℚ
  max_temp : ℚ
  min_wind : ℚ
  max_wind : ℚ
  min_precip : ℚ
  max_precip : ℚ
deriving DecidableEq, Repr

/-- Embeds lines 85-117: each user threshold is tested for Python truthiness;
when truthy it replaces one side of the built-in [0, 0] envelope. -/
def deployment_bounds (cfg : MethodWeather) : WeatherBounds :=
  let temp_env : ℚ × ℚ := (0, 0)
  let wind_speed_env : ℚ × ℚ := (0, 0)
  let precip_env : ℚ × ℚ := (0, 0)
  let tb : ℚ × ℚ :=
    if cfg.min_temp ≠ 0 then (cfg.min_temp, 100) else (temp_env.1, temp_env.2)
  let wb : ℚ × ℚ :=
    if cfg.max_wind ≠ 0 then (0, cfg.max_wind) else (wind_speed_env.1, wind_speed_env.2)
  let pb : ℚ × ℚ :=
    if cfg.max_precip ≠ 0 then (-10, cfg.max_precip) else (precip_env.1, precip_env.2)
  { min_temp := tb.1, max_temp := tb.2
    min_wind := wb.1, max_wind := wb.2
    min_precip := pb.1, max_precip := pb.2 }

/-- Embeds line 134: bool_temp cell indicator. -/
def bool_temp (w : WeatherState) (b : WeatherBounds) (lon lat day : ℕ) : ℕ :=
  if b.min_temp ≤ w.temps day lat lon ∧ w.temps day lat lon ≤ b.max_temp then 1 else 0

/-- Embeds line 138: the wind indicator; note the source compares the
TEMPERATURE grid against the wind bounds. -/
def bool_wind (w : WeatherState) (b : WeatherBounds) (lon lat day : ℕ) : ℕ :=
  if b.min_wind ≤ w.temps day lat lon ∧ w.temps day lat lon ≤ b.max_wind then 1 else 0

/-- Embeds line 142: the precipitation indicator; note the source compares the
TEMPERATURE grid against the precipitation bounds. -/
def bool_precip (w : WeatherState) (b : WeatherBounds) (lon lat day : ℕ) : ℕ :=
  if b.min_precip ≤ w.temps day lat lon ∧ w.temps day lat lon ≤ b.max_precip then 1 else 0

/-- Embeds WeatherLookup.deployment_days at one (lon, lat, day) cell:
bool_sum == 3 (lines 147-150). -/
def deployment_days (w : WeatherState) (cfg : MethodWeather) (lon lat day : ℕ) : Bool :=
  let b := deployment_bounds cfg
  decide (bool_temp w b lon lat day + bool_wind w b lon lat day + bool_precip w b lon lat day = 3)

/-- The deployment-day cell value as the claim states it: temperature, wind
and precipitation each tested against their own bounds. -/
def deployment_day_claim (w : WeatherState) (cfg : MethodWeather) (lon lat day : ℕ) : Bool :=
  let b := deployment_bounds cfg
  decide (b.min_temp ≤ w.temps day lat lon ∧ w.temps day lat lon ≤ b.max_temp ∧
    b.min_wind ≤ w.winds day lat lon ∧ w.winds day lat lon ≤ b.max_wind ∧
    b.min_precip ≤ w.precip day lat lon ∧ w.precip day lat lon ≤ b.max_precip)

/-! ## leak_rvs (utils/distributions.py lines 65-87)

The scipy distribution is modelled as a stream of successive draws
(a function from draw index to value).  The while-True loop is given fuel;
the source loop runs until a draw passes the max_size test. -/

/-- Modelled from the spec: utils.unit_converter.gas_convert is imported by
distributions.py but its file is not under src/.  Spec section 4.A: the unit
conversion table enumerates mass units times time increments and conversions
compose via g/s, so a rate declared in (metric, increment) is multiplied by
grams-per-metric and divided by seconds-per-increment.  Grams per mass unit. -/
def gramsPerMetric : String → ℚ
  | "gram" => 1
  | "kilogram" => 1000
  | "pound" => 45359237 / 100000
  | _ => 1

/-- Modelled from the spec: seconds per time increment of the unit table
(spec section 4.A). -/
def secondsPerIncrement : String → ℚ
  | "second" => 1
  | "minute" => 60
  | "hour" => 3600
  | "day" => 86400
  | _ => 1

/-- Modelled from the spec: gas_convert converts a rate declared in
(input_metric per input_increment) into grams per second. -/
def gas_convert (value : ℚ) (input_metric input_increment : String) : ℚ :=
  value * gramsPerMetric input_metric / secondsPerIncrement input_increment

/-- Embeds the while-True loop of leak_rvs (lines 78-86): draw, convert only
when BOTH the metric differs from gram AND the increment differs from second
(the source condition uses and), then break when max_size is falsy or the
draw is below it.  Returns none when fuel runs out. -/
def leak_rvs_loop (samples : ℕ → ℚ) (max_size : Option ℚ)
    (gpsec_conversion : Option (String × String)) : ℕ → ℕ → Option ℚ
  | 0, _ => none
  | fuel + 1, idx =>
    let drawn := samples idx
    let leaksize :=
      match gpsec_conversion with
      | some (metric, increment) =>
        if pyLower metric ≠ "gram" ∧ pyLower increment ≠ "second" then
          gas_convert drawn metric increment
        else drawn
      | none => drawn
    match max_size with
    | none => some leaksize
    | some m =>
      if m = 0 then some leaksize
      else if leaksize < m then some leaksize
      else leak_rvs_loop samples max_size gpsec_conversion fuel (idx + 1)

/-- Embeds leak_rvs: run the rejection loop from the first draw. -/
def leak_rvs (samples : ℕ → ℚ) (max_size : Option ℚ)
    (gpsec_conversion : Option (String × String)) (fuel : ℕ) : Option ℚ :=
  leak_rvs_loop samples max_size gpsec_conversion fuel 0

/-! ## BaseCompany.flag_sites (methods/company.py lines 171-253)

The company state relevant to flag_sites: the candidate_flags collected from
crews during the day and the site_watchlist, a Python dict (insertion
ordered) from facility_ID to a watchlist entry.  The source writes the
redundancy-filter result under the key "effective_site_rate " WITH a
trailing space (lines 194, 197, 200), a distinct dict key from
"effective_site_rate"; the entry record carries both.  After sorting the
watchlist the source iterates the dict itself, so the loop variable is a
facility_ID STRING, and subscripting it (site = i['site'], line 221) raises
TypeError. -/

/-- The nested site dict of a candidate flag (only facility_ID is read
before the failure point). -/
structure WSite where
  facility_ID : String
deriving DecidableEq, Repr

/-- One element of company.candidate_flags as read by flag_sites. -/
structure Candidate where
  site : WSite
  site_measured_rate : ℚ
deriving DecidableEq, Repr

/-- One value of the site_watchlist dict; effective_site_rate_spaced models
the "effective_site_rate " key (trailing space) written on lines 194-201. -/
structure WatchEntry where
  dates : List ℤ
  site_measured_rates : List ℚ
  effective_site_rate : ℚ
  effective_site_rate_spaced : Option ℚ
deriving DecidableEq, Repr

/-- Configuration fields of flag_sites. -/
structure FollowUpConfig where
  interaction_priority : String
  threshold : ℚ
  redundancy_filter : String
  follow_up_ratio : ℚ
deriving DecidableEq, Repr

/-- Python max over a list of rationals (0 for the empty list, which the
source never reaches). -/
def pyMax : List ℚ → ℚ
  | [] => 0
  | x :: xs => xs.foldl max x

/-- Update one key of an association list in place. -/
def updateEntry (wl : List (String × WatchEntry)) (k : String)
    (f : WatchEntry → WatchEntry) : List (String × WatchEntry) :=
  wl.map fun p => if p.1 = k then (p.1, f p.2) else p

/-- Embeds lines 177-201 of flag_sites for one candidate: the threshold test
then the watchlist insert or update, including the trailing-space key and the
np.average call on the LAST rate alone (line 201). -/
def watchlist_insert (cfg : FollowUpConfig) (today : ℤ)
    (wl : List (String × WatchEntry)) (c : Candidate) : List (String × WatchEntry) :=
  if (cfg.interaction_priority = "threshold" ∧ c.site_measured_rate > cfg.threshold)
      ∨ cfg.interaction_priority ≠ "threshold" then
    if (wl.lookup c.site.facility_ID).isSome then
      updateEntry wl c.site.facility_ID fun e =>
        let rates := e.site_measured_rates ++ [c.site_measured_rate]
        let spaced : Option ℚ :=
          if cfg.redundancy_filter = "recent" then some c.site_measured_rate
          else if cfg.redundancy_filter = "max" then some (pyMax rates)
          else if cfg.redundancy_filter = "mean" then some c.site_measured_rate
          else e.effective_site_rate_spaced
        { dates := e.dates ++ [today]
          site_measured_rates := rates
          effective_site_rate := e.effective_site_rate
          effective_site_rate_spaced := spaced }
    else
      wl ++ [(c.site.facility_ID,
        { dates := [today]
          site_measured_rates := [c.site_measured_rate]
          effective_site_rate := c.site_measured_rate
          effective_site_rate_spaced := none })]
  else wl

/-- The ceiling of a rational, written with integer division so that it
evaluates by kernel reduction; ratCeil_eq_ceil below proves it equal to the
mathematical ceiling. -/
def ratCeil (q : ℚ) : ℤ :=
  -((-q.num) / (q.den : ℤ))

/-- Embeds lines 203-205: n_sites_to_flag = int(math.ceil(len * ratio)).
The source computes this value and never uses it again. -/
def n_sites_to_flag (watchlist_len : ℕ) (follow_up_ratio : ℚ) : ℤ :=
  ratCeil ((watchlist_len : ℚ) * follow_up_ratio)

/-- Stable insertion of a watchlist item into a list already sorted by
effective_site_rate descending: the item goes after every earlier item whose
rate is at least as large, matching the stability of Python sorted with
reverse=True (line 208-211). -/
def insert_desc (x : String × WatchEntry) :
    List (String × WatchEntry) → List (String × WatchEntry)
  | [] => [x]
  | y :: ys =>
    if x.2.effective_site_rate ≤ y.2.effective_site_rate then y :: insert_desc x ys
    else x :: y :: ys

/-- The stable descending sort of the watchlist by effective_site_rate
(lines 208-211). -/
def sort_watchlist (wl : List (String × WatchEntry)) : List (String × WatchEntry) :=
  wl.foldl (fun acc x => insert_desc x acc) []

/-- Embeds BaseCompany.flag_sites (lines 171-253): update the watchlist from
candidate_flags, compute n_sites_to_flag (unused by the source), sort the
watchlist by effective_site_rate descending (stable), then iterate
target_sites.  target_sites is the dict itself (or a comprehension over it),
so iteration yields facility_ID strings and the first body line
site = i['site'] raises TypeError whenever the watchlist is non-empty. -/
def flag_sites (cfg : FollowUpConfig) (today : ℤ)
    (wl : List (String × WatchEntry)) (candidate_flags : List Candidate) :
    Except PyErr (List (String × WatchEntry)) :=
  let wl1 := candidate_flags.foldl (watchlist_insert cfg today) wl
  let _n := n_sites_to_flag wl1.length cfg.follow_up_ratio
  let sortedWl := sort_watchlist wl1
  if cfg.interaction_priority = "proportional" then
    match sortedWl with
    | [] => Except.ok []
    | _ :: _ => Except.error PyErr.typeError
  else
    match sortedWl with
    | [] => Except.ok sortedWl
    | _ :: _ => Except.error PyErr.typeError

/-! ## OGI_crew.work_a_day rollover branch (model_code/OGI_crew.py lines 102-141)

Datetimes are minute counts (integers); self.rollover is the two-element
Python list [site, minutes_remaining].  The source first reads
rollover[1] to project the end time; when the site cannot be finished it
executes self.rollover = [] and then self.rollover.append(self.rollover[0]),
reading index 0 of the just-cleared list. -/

/-- The site fields used around the rollover branch. -/
structure OSite where
  facility_ID : String
  OGI_time : ℤ
deriving DecidableEq, Repr

/-- An element of the heterogeneous Python list self.rollover. -/
inductive RItem where
  | site (s : OSite)
  | num (q : ℚ)
deriving DecidableEq, Repr

/-- Embeds lines 102-141: the branch taken when a rollover exists.  Returns
the new rollover list and worked_today.  In the cannot-finish case the
source clears self.rollover and then appends self.rollover[0], so the read
hits the empty list and raises IndexError. -/
def work_a_day_rollover (rollover : List RItem)
    (current_date allowed_end_time drive_home : ℤ) : Except PyErr (List RItem × Bool) :=
  if 0 < rollover.length then
    match rollover[1]? with
    | some (RItem.num r1) =>
      let projected_end_time := current_date + pyInt r1
      if projected_end_time + drive_home > allowed_end_time then
        let minutes_remaining : ℚ := ((projected_end_time - allowed_end_time : ℤ) : ℚ)
        let cleared : List RItem := []
        match cleared[0]? with
        | none => Except.error PyErr.indexError
        | some v => Except.ok (cleared ++ [v, RItem.num minutes_remaining], true)
      else
        Except.ok ([], true)
    | some (RItem.site _) => Except.error PyErr.typeError
    | none => Except.error PyErr.indexError
  else
    Except.ok (rollover, false)

/-- The rollover step as the claim states it: the pair (site, remaining) is
captured from the OLD rollover before it is cleared. -/
def work_a_day_rollover_claim (rollover : List RItem)
    (current_date allowed_end_time drive_home : ℤ) : Except PyErr (List RItem × Bool) :=
  if 0 < rollover.length then
    match rollover[1]? with
    | some (RItem.num r1) =>
      let projected_end_time := current_date + pyInt r1
      if projected_end_time + drive_home > allowed_end_time then
        let minutes_remaining : ℚ := ((projected_end_time - allowed_end_time : ℤ) : ℚ)
        match rollover[0]? with
        | none => Except.error PyErr.indexError
        | some v => Except.ok ([v, RItem.num minutes_remaining], true)
      else
        Except.ok ([], true)
    | some (RItem.site _) => Except.error PyErr.typeError
    | none => Except.error PyErr.indexError
  else
    Except.ok (rollover, false)

/-! ## Leak lifecycle state (model_code/ldar_sim.py, model_code/OGI_crew.py)

Leak dicts are created in LdarSim.__init__ / add_leaks with date_found,
found_by_company and found_by_crew keys; the OGI tagging path of
OGI_crew.visit_site ADDS date_tagged, tagged_by_company and tagged_by_crew
keys to the same dict.  The record below carries both families.  Dates are
day ordinals (integers); the tag pool holds references to leak dicts, which
the embedding represents by leak_ID (leak IDs are unique by construction,
facility_ID plus a global running sequence number). -/

/-- The status field of a leak dict. -/
inductive LStatus where
  | active
  | repaired
deriving DecidableEq, Repr

/-- A leak dict (ldar_sim.py lines 137-152 for creation; tagging keys from
OGI_crew.py lines 352-357). -/
structure Leak where
  leak_ID : String
  facility_ID : String
  rate : ℚ
  status : LStatus
  days_active : ℤ
  tagged : Bool
  date_found : Option ℤ
  found_by_company : Option String
  date_repaired : Option ℤ
  repair_delay : Option ℤ
  date_tagged : Option ℤ
  tagged_by_company : Option String
  tagged_by_crew : Option ℤ
deriving DecidableEq, Repr

/-- The slice of the simulation state shared by tagging and repair: the leak
pool and the tag pool (tags hold leak dict references, modelled by ID). -/
structure SimState where
  leaks : List Leak
  tags : List String
deriving DecidableEq, Repr

/-- The mutation applied to a tag that meets the repair condition
(ldar_sim.py lines 273-276 / 279-282); df is the day the leak was found. -/
def markRepaired (today df : ℤ) (l : Leak) : Leak :=
  { l with
    status := LStatus.repaired
    tagged := false
    date_repaired := some today
    repair_delay := some (today - df) }

/-- Embeds the per-tag body of LdarSim.repair_leaks (lines 269-282): the
non-operator branch reads date_found (TypeError when missing, the datetime
subtraction is evaluated first) then the tagging method's reporting_delay
(KeyError when the company is absent from methods). -/
def repairTag (today repair_delay_param : ℤ) (methods : List (String × ℤ)) (l : Leak) :
    Except PyErr Leak :=
  if l.found_by_company ≠ some "operator" then
    match l.date_found with
    | none => Except.error PyErr.typeError
    | some df =>
      match l.found_by_company with
      | none => Except.error PyErr.keyError
      | some c =>
        match methods.lookup c with
        | none => Except.error PyErr.keyError
        | some reporting_delay =>
          if today - df ≥ repair_delay_param + reporting_delay then
            Except.ok (markRepaired today df l)
          else Except.ok l
  else
    match l.date_found with
    | none => Except.error PyErr.typeError
    | some df =>
      if today - df ≥ repair_delay_param then Except.ok (markRepaired today df l)
      else Except.ok l

/-- Apply repairTag to the leak dict a tag references, others unchanged. -/
def repairTagIfMatch (today repair_delay_param : ℤ) (methods : List (String × ℤ))
    (id : String) (l : Leak) : Except PyErr Leak :=
  if l.leak_ID = id then repairTag today repair_delay_param methods l else Except.ok l

/-- Update every leak dict of the pool through f (the identity on leaks a
tag does not reference), propagating a raised exception. -/
def updateLeaks (f : Leak → Except PyErr Leak) : List Leak → Except PyErr (List Leak)
  | [] => Except.ok []
  | l :: rest => do
    let l2 ← f l
    let rest2 ← updateLeaks f rest
    Except.ok (l2 :: rest2)

/-- The for-loop of repair_leaks over the tag pool: each tag's leak dict is
condition-checked and possibly mutated in place. -/
def processTags (today repair_delay_param : ℤ) (methods : List (String × ℤ)) :
    List String → List Leak → Except PyErr (List Leak)
  | [], leaks => Except.ok leaks
  | id :: rest, leaks => do
    let leaks2 ← updateLeaks (repairTagIfMatch today repair_delay_param methods id) leaks
    processTags today repair_delay_param methods rest leaks2

/-- The filter condition of line 284: a tag survives when its leak dict
still has status active. -/
def leakActiveInList (leaks : List Leak) (id : String) : Bool :=
  match leaks.find? (fun l => l.leak_ID == id) with
  | some l => l.status == LStatus.active
  | none => false

/-- Embeds LdarSim.repair_leaks (lines 264-286): sweep the tag pool, then
keep only tags whose leak is still active (the comprehension of line 284,
which runs against the mutated dicts). -/
def repair_leaks (today repair_delay_param : ℤ) (methods : List (String × ℤ))
    (s : SimState) : Except PyErr SimState := do
  let leaks2 ← processTags today repair_delay_param methods s.tags s.leaks
  Except.ok { leaks := leaks2, tags := s.tags.filter (leakActiveInList leaks2) }

/-- Embeds the tagging branch of OGI_crew.visit_site (lines 347-357) for one
detected leak: leaks_present only holds active leaks of the site (lines
329-332), a tagged leak only counts a redundant tag, an untagged one gets
tagged, stamped and appended to the tag pool. -/
def visit_site_tag (today : ℤ) (company : String) (crew : ℤ) (id : String)
    (s : SimState) : SimState :=
  match s.leaks.find? (fun l => l.leak_ID == id) with
  | none => s
  | some l =>
    if l.status == LStatus.active && !l.tagged then
      { leaks := s.leaks.map fun l2 =>
          if l2.leak_ID == id then
            { l2 with
              tagged := true
              date_tagged := some today
              tagged_by_company := some company
              tagged_by_crew := some crew }
          else l2
        tags := s.tags ++ [id] }
    else s

/-- One tagging event of a day (a detected leak during some site visit). -/
structure TagOp where
  today : ℤ
  company : String
  crew : ℤ
  id : String
deriving DecidableEq, Repr

/-- All tagging events of a day, in order. -/
def applyTagOps (ops : List TagOp) (s : SimState) : SimState :=
  ops.foldl (fun st op => visit_site_tag op.today op.company op.crew op.id st) s

/-- The claimed invariant: every tag references a leak in the leak pool that
is tagged and active. -/
def TagsInv (s : SimState) : Prop :=
  ∀ id ∈ s.tags, ∃ l ∈ s.leaks, l.leak_ID = id ∧ l.tagged = true ∧ l.status = LStatus.active

/-- Well-formedness: unique leak IDs, no duplicate tag references, and the
tag invariant. -/
def SimWF (s : SimState) : Prop :=
  (s.leaks.map Leak.leak_ID).Nodup ∧ s.tags.Nodup ∧ TagsInv s

/-! ## LdarSim.finalize attribution (ldar_sim.py lines 312-324) -/

/-- A site dict restricted to the fields finalize touches. -/
structure FSite where
  facility_ID : String
  total_emissions_kg : ℚ
  active_leaks : ℤ
  repaired_leaks : ℤ
deriving DecidableEq, Repr

/-- Embeds the inner site loop for one leak (lines 317-324): the FIRST site
with matching facility_ID accumulates days_active * rate and a leak counter,
then the loop breaks. -/
def attribute_leak : List FSite → Leak → List FSite
  | [], _ => []
  | st :: rest, l =>
    if st.facility_ID = l.facility_ID then
      { st with
        total_emissions_kg := st.total_emissions_kg + (l.days_active : ℚ) * l.rate
        active_leaks := st.active_leaks + (if l.status = LStatus.active then 1 else 0)
        repaired_leaks := st.repaired_leaks + (if l.status = LStatus.repaired then 1 else 0) }
        :: rest
    else st :: attribute_leak rest l

/-- Embeds the outer leak loop of finalize (lines 315-324). -/
def finalize_attribution (leaks : List Leak) (sites : List FSite) : List FSite :=
  leaks.foldl attribute_leak sites

/-- Sum of total_emissions_kg over sites. -/
def total_emissions_sum (sites : List FSite) : ℚ :=
  (sites.map FSite.total_emissions_kg).sum

/-- Sum of days_active * rate over leaks. -/
def leak_emissions_sum (leaks : List Leak) : ℚ :=
  (leaks.map fun l => (l.days_active : ℚ) * l.rate).sum

/-! ## check_types and parse_parameters (model_code/input_manager.py)

Parameter values are a Python-value tree; type(default) is type(test)
compares the outer runtime type (bool is its own type).  sys.exit() aborts
immediately; messages printed before any abort are counted as
(type mismatches, unknown-key warnings). -/

/-- A Python parameter value. -/
inductive PVal where
  | pint (n : ℤ)
  | pfloat (q : ℚ)
  | pstr (s : String)
  | pbool (b : Bool)
  | pnone
  | plist (xs : List PVal)
  | pdict (xs : List (String × PVal))

/-- The Python runtime type of a value. -/
inductive PTy where
  | tint
  | tfloat
  | tstr
  | tbool
  | tnone
  | tlist
  | tdict
deriving DecidableEq, Repr

/-- type(v) for a parameter value. -/
def pyType : PVal → PTy
  | PVal.pint _ => PTy.tint
  | PVal.pfloat _ => PTy.tfloat
  | PVal.pstr _ => PTy.tstr
  | PVal.pbool _ => PTy.tbool
  | PVal.pnone => PTy.tnone
  | PVal.plist _ => PTy.tlist
  | PVal.pdict _ => PTy.tdict

mutual

/-- Embeds check_types (input_manager.py lines 33-68).  Returns the counts
of (mismatch messages, unknown-key warnings); sys.exit (only reachable when
fatal is true) and the IndexError of default[0] on an empty default list
abort via Except.error. -/
def check_types (dflt test : PVal) (omit_keys : List String) (fatal : Bool) :
    Except PyErr (ℕ × ℕ) :=
  if pyType dflt = pyType test then
    match dflt, test with
    | PVal.pdict dd, PVal.pdict td => check_dict dd td omit_keys fatal
    | PVal.plist ds, PVal.plist ts =>
      if 0 < ts.length then
        match ds with
        | [] => Except.error PyErr.indexError
        | d0 :: _ => check_list d0 ts omit_keys fatal
      else Except.ok (0, 0)
    | _, _ => Except.ok (0, 0)
  else if fatal then Except.error PyErr.exitCalled
  else Except.ok (1, 0)

/-- The dict branch of check_types (lines 47-56): iterate the test keys,
skip omitted ones, warn (or exit when fatal) on unknown keys, recurse on
known ones. -/
def check_dict (dd td : List (String × PVal)) (omit_keys : List String) (fatal : Bool) :
    Except PyErr (ℕ × ℕ) :=
  match td with
  | [] => Except.ok (0, 0)
  | (k, v) :: rest =>
    if k ∈ omit_keys then check_dict dd rest omit_keys fatal
    else
      match dd.lookup k with
      | none =>
        if fatal then Except.error PyErr.exitCalled
        else do
          let r ← check_dict dd rest omit_keys fatal
          Except.ok (r.1, r.2 + 1)
      | some dv => do
        let r1 ← check_types dv v omit_keys fatal
        let r2 ← check_dict dd rest omit_keys fatal
        Except.ok (r1.1 + r2.1, r1.2 + r2.2)

/-- The list branch of check_types (lines 58-61): every test element is
checked against default[0]. -/
def check_list (d0 : PVal) (ts : List PVal) (omit_keys : List String) (fatal : Bool) :
    Except PyErr (ℕ × ℕ) :=
  match ts with
  | [] => Except.ok (0, 0)
  | t :: rest => do
    let r1 ← check_types d0 t omit_keys fatal
    let r2 ← check_list d0 rest omit_keys fatal
    Except.ok (r1.1 + r2.1, r1.2 + r2.2)

end

/-- Python dict.update on an insertion-ordered dict. -/
def dict_update (base upd : List (String × PVal)) : List (String × PVal) :=
  upd.foldl
    (fun acc kv =>
      if (acc.lookup kv.1).isSome then acc.map fun p => if p.1 = kv.1 then kv else p
      else acc ++ [kv])
    base

/-- Embeds the program-level branch of InputManager.parse_parameters
(lines 278-284): check_types is called with omit_keys = ['methods'] and
fatal LEFT AT ITS DEFAULT False, then the supplied parameters are merged
over a deep copy of the defaults. -/
def parse_program_level (program_parameters new_parameters : List (String × PVal)) :
    Except PyErr (List (String × PVal)) := do
  let _msgs ← check_types (PVal.pdict program_parameters) (PVal.pdict new_parameters)
    ["methods"] false
  Except.ok (dict_update program_parameters new_parameters)

/-! ## Theorems -/

/-- ratCeil is the mathematical ceiling. -/
theorem ratCeil_eq_ceil (q : ℚ) : ratCeil q = ⌈q⌉ := by
  have h2 : ⌊-q⌋ = (-q).num / ((-q).den : ℤ) := Rat.floor_def
  rw [Rat.num_neg_eq_neg_num, Rat.den_neg_eq_den] at h2
  have h3 : ⌊-q⌋ = -⌈q⌉ := Int.floor_neg
  rw [ratCeil]
  omega

/-- Claim C1: for a company with a non-empty site watchlist, flag_sites is
claimed to flag exactly the top n_flag = ceil of watchlist size times
follow_up_ratio sites by effective_site_rate.  On the spec scenario (four
candidates with measured rates 5, 2, 1, 0.1, threshold 0.5, ratio 0.5,
giving a three-site watchlist and n_flag = 2) the embedded flag_sites
instead raises TypeError: it iterates the watchlist dict itself, so the loop
variable is a facility_ID string and site = i['site'] subscripts a string;
the computed n_sites_to_flag = 2 is never used. -/
theorem C1_flag_sites_code_bug :
    flag_sites ⟨"threshold", mkRat 1 2, "recent", mkRat 1 2⟩ 0 []
        [⟨⟨"F1"⟩, 5⟩, ⟨⟨"F2"⟩, 2⟩, ⟨⟨"F3"⟩, 1⟩, ⟨⟨"F4"⟩, mkRat 1 10⟩] =
      Except.error PyErr.typeError ∧
    n_sites_to_flag 3 (mkRat 1 2) = 2 := by
  refine ⟨by rfl, ?_⟩
  have h : ((3 : ℕ) : ℚ) * mkRat 1 2 = mkRat 3 2 := by
    rw [Rat.mkRat_eq_div, Rat.mkRat_eq_div]
    norm_num
  rw [n_sites_to_flag, h]
  rfl

/-- Claim C2: a deployment-day cell is claimed true iff the cell temperature,
wind and precipitation each lie within their envelope bounds.  With bounds
min_temp = -40 (so max_temp = 100), max_wind = 20 and max_precip = 5, a cell
with temperature 3, wind 50 and precipitation 0 should be non-deployable
(wind 50 exceeds 20), but the embedded deployment_days returns true: the
source tests the temperature grid against the wind and precipitation bounds
(weather_lookup.py lines 138 and 142), contradicting its own comments. -/
theorem C2_deployment_days_code_bug :
    deployment_days ⟨fun _ _ _ => 3, fun _ _ _ => 50, fun _ _ _ => 0⟩ ⟨-40, 20, 5⟩ 0 0 0 = true ∧
    deployment_day_claim ⟨fun _ _ _ => 3, fun _ _ _ => 50, fun _ _ _ => 0⟩ ⟨-40, 20, 5⟩ 0 0 0
      = false := by
  exact ⟨by rfl, by rfl⟩

/-- Claim C3: a crew day beginning with a rollover whose site cannot be
completed is claimed to leave the rollover holding the same site and the new
remaining minutes.  With rollover = [site, 500 minutes], day start 480,
allowed end 960 and 30 minutes drive home, the embedded branch instead
raises IndexError: the source clears self.rollover and then appends
self.rollover[0] from the now-empty list (OGI_crew.py lines 132-133), while
the capture-before-clear version required by the claim stores the site with
the 20 remaining minutes. -/
theorem C3_rollover_code_bug :
    work_a_day_rollover [RItem.site ⟨"A", 500⟩, RItem.num 500] 480 960 30 =
      Except.error PyErr.indexError ∧
    work_a_day_rollover_claim [RItem.site ⟨"A", 500⟩, RItem.num 500] 480 960 30 =
      Except.ok ([RItem.site ⟨"A", 500⟩, RItem.num 20], true) := by
  exact ⟨by rfl, by rfl⟩

/-- Claim C7 counterexample: the satellite site-scale check is claimed to
report a detection iff the covered rate exceeds Q_min = 5.79 * (1.39 / U).
At wind speed U = 1.39 the formula gives 5.79, yet a site with covered rate
1 is reported detected: the source overwrites Q_min with 0 (satellite.py
line 210) before comparing. -/
theorem C7_check_detection_counterexample :
    check_detection (mkRat 139 100) 1 = true ∧ ¬ ((1 : ℚ) > Q_min_formula (mkRat 139 100)) := by
  constructor
  · rfl
  · rw [Q_min_formula, Rat.mkRat_eq_div]
    norm_num

/-- Claim C7 amended: the satellite check_detection reports a detection iff
the covered cumulative site rate is positive; the wind-dependent
Q_min = 5.79 * (1.39 / U) is computed but immediately overridden to 0. -/
theorem C7_check_detection_amended (U site_cum_rate : ℚ) :
    check_detection U site_cum_rate = true ↔ 0 < site_cum_rate := by
  simp [check_detection]

/-- Claim C8: leak_rvs is claimed to convert every draw into g/s whenever
the declared unit pair differs from (gram, second).  For the pair
(kilogram, second) the embedded leak_rvs returns the raw draw 1 unchanged,
although the conversion of 1 kg/s is 1000 g/s: the source only converts when
BOTH the metric differs from gram AND the increment differs from second
(distributions.py lines 80-82). -/
theorem C8_leak_rvs_code_bug :
    leak_rvs (fun _ => 1) none (some ("kilogram", "second")) 1 = some 1 ∧
    gas_convert 1 "kilogram" "second" = 1000 := by
  constructor
  · rfl
  · rw [gas_convert, gramsPerMetric, secondsPerIncrement]
    norm_num

/-- Claim C10: for nonnegative survey and travel times, check_visit_time
returns remaining_mins = survey_mins - LDAR_mins_onsite, a nonnegative
remaining_mins, LDAR_mins = travel_to_mins + LDAR_mins_onsite, and zero
on-site minutes whenever go_to_site is false. -/
theorem C10_check_visit_time_ok
    (survey_mins travel_to_mins travel_home_mins mins_left_in_day : ℚ)
    (hs : 0 ≤ survey_mins) (ht : 0 ≤ travel_to_mins) (hh : 0 ≤ travel_home_mins) :
    (check_visit_time survey_mins travel_to_mins travel_home_mins mins_left_in_day).remaining_mins
        = survey_mins -
          (check_visit_time survey_mins travel_to_mins travel_home_mins
            mins_left_in_day).LDAR_mins_onsite ∧
    0 ≤ (check_visit_time survey_mins travel_to_mins travel_home_mins
          mins_left_in_day).remaining_mins ∧
    (check_visit_time survey_mins travel_to_mins travel_home_mins mins_left_in_day).LDAR_mins
        = travel_to_mins +
          (check_visit_time survey_mins travel_to_mins travel_home_mins
            mins_left_in_day).LDAR_mins_onsite ∧
    ((check_visit_time survey_mins travel_to_mins travel_home_mins
        mins_left_in_day).go_to_site = false →
      (check_visit_time survey_mins travel_to_mins travel_home_mins
        mins_left_in_day).LDAR_mins_onsite = 0) := by
  rw [check_visit_time]
  split_ifs with h1 h2 h3 h4 h5 <;>
    refine ⟨by ring, ?_, by ring, ?_⟩ <;> simp <;> linarith

/-- Witness for C10 at survey 100, travel to 10, travel home 10, 60 minutes
left in the day. -/
theorem C10_check_visit_time_ok_witness :
    (check_visit_time 100 10 10 60).remaining_mins
        = 100 - (check_visit_time 100 10 10 60).LDAR_mins_onsite ∧
    0 ≤ (check_visit_time 100 10 10 60).remaining_mins ∧
    (check_visit_time 100 10 10 60).LDAR_mins
        = 10 + (check_visit_time 100 10 10 60).LDAR_mins_onsite ∧
    ((check_visit_time 100 10 10 60).go_to_site = false →
      (check_visit_time 100 10 10 60).LDAR_mins_onsite = 0) :=
  C10_check_visit_time_ok 100 10 10 60 (by norm_num) (by norm_num) (by norm_num)

/-- Claim C6 counterexample: a supplied program parameter repair_delay whose
value is the string "14" has a different type from the integer default 14,
yet the embedded program-level validation returns normally (no sys.exit is
reached, since parse_parameters leaves check_types' fatal argument at its
default False) and the merged program carries the mismatched string value. -/
theorem C6_check_types_counterexample :
    pyType (PVal.pint 14) ≠ pyType (PVal.pstr "14") ∧
    parse_program_level [("repair_delay", PVal.pint 14)] [("repair_delay", PVal.pstr "14")] =
      Except.ok [("repair_delay", PVal.pstr "14")] := by
  constructor
  · simp [pyType]
  · simp [parse_program_level, check_types, check_dict, pyType, dict_update, List.lookup]
    rfl

/-- Claim C6 amended: with fatal left at its default False by every
parse_parameters call site, a type mismatch against the default only
produces a printed mismatch message and validation returns normally with
counts (1, 0); an unknown key likewise only produces a warning, returning
counts (0, 1). -/
theorem C6_check_types_amended :
    (∀ (dflt test : PVal) (omit_keys : List String), pyType dflt ≠ pyType test →
      check_types dflt test omit_keys false = Except.ok (1, 0)) ∧
    (∀ (dd : List (String × PVal)) (k : String) (v : PVal) (omit_keys : List String),
      k ∉ omit_keys → dd.lookup k = none →
      check_types (PVal.pdict dd) (PVal.pdict [(k, v)]) omit_keys false = Except.ok (0, 1)) := by
  constructor
  · intro dflt test omit_keys h
    unfold check_types
    simp [h]
  · intro dd k v omit_keys hk hl
    unfold check_types
    simp [pyType, check_dict, hk, hl]
    rfl

/-- Witness for the amended C6: a concrete type mismatch warns with (1, 0)
and a concrete unknown key warns with (0, 1). -/
theorem C6_check_types_amended_witness :
    check_types (PVal.pint 14) (PVal.pstr "14") [] false = Except.ok (1, 0) ∧
    check_types (PVal.pdict []) (PVal.pdict [("zzz", PVal.pint 1)]) [] false =
      Except.ok (0, 1) :=
  ⟨C6_check_types_amended.1 (PVal.pint 14) (PVal.pstr "14") [] (by simp [pyType]),
   C6_check_types_amended.2 [] "zzz" (PVal.pint 1) [] (by simp) (by simp)⟩

/-- attribute_leak does not change the facility_ID column of the site list. -/
theorem attribute_map_facility (sites : List FSite) (l : Leak) :
    (attribute_leak sites l).map FSite.facility_ID = sites.map FSite.facility_ID := by
  induction sites with
  | nil => rfl
  | cons st rest ih =>
    rw [attribute_leak]
    by_cases h : st.facility_ID = l.facility_ID
    · rw [if_pos h]
      simp
    · rw [if_neg h]
      simp [ih]

/-- When some site matches the leak, attribute_leak adds exactly the leak's
lifetime emission to the total over sites. -/
theorem attribute_sum (sites : List FSite) (l : Leak)
    (h : ∃ st ∈ sites, st.facility_ID = l.facility_ID) :
    total_emissions_sum (attribute_leak sites l)
      = total_emissions_sum sites + (l.days_active : ℚ) * l.rate := by
  induction sites with
  | nil => simp at h
  | cons st rest ih =>
    rw [attribute_leak]
    by_cases hf : st.facility_ID = l.facility_ID
    · rw [if_pos hf]
      simp only [total_emissions_sum, List.map_cons, List.sum_cons]
      ring
    · rw [if_neg hf]
      obtain ⟨s1, hs1, he⟩ := h
      rcases List.mem_cons.mp hs1 with rfl | hmemr
      · exact absurd he hf
      · simp only [total_emissions_sum, List.map_cons, List.sum_cons] at ih ⊢
        rw [ih ⟨s1, hmemr, he⟩]
        ring

/-- Folding attribution over all leaks adds the total lifetime emissions of
the leaks, provided every leak has a matching site. -/
theorem finalize_sum (leaks : List Leak) (sites : List FSite)
    (h : ∀ l ∈ leaks, ∃ st ∈ sites, st.facility_ID = l.facility_ID) :
    total_emissions_sum (finalize_attribution leaks sites)
      = total_emissions_sum sites + leak_emissions_sum leaks := by
  induction leaks generalizing sites with
  | nil => simp [finalize_attribution, leak_emissions_sum]
  | cons l rest ih =>
    have hmem := h l (List.mem_cons_self l rest)
    have hrest : ∀ l2 ∈ rest, ∃ st ∈ attribute_leak sites l, st.facility_ID = l2.facility_ID := by
      intro l2 hl2
      obtain ⟨st, hst, he⟩ := h l2 (List.mem_cons_of_mem _ hl2)
      have hm : l2.facility_ID ∈ (attribute_leak sites l).map FSite.facility_ID := by
        rw [attribute_map_facility]
        exact List.mem_map.mpr ⟨st, hst, he⟩
      obtain ⟨st2, hst2, he2⟩ := List.mem_map.mp hm
      exact ⟨st2, hst2, he2⟩
    have hfold : finalize_attribution (l :: rest) sites
        = finalize_attribution rest (attribute_leak sites l) := by
      rw [finalize_attribution, finalize_attribution, List.foldl_cons]
    rw [hfold, ih (attribute_leak sites l) hrest, attribute_sum sites l hmem]
    simp only [leak_emissions_sum, List.map_cons, List.sum_cons]
    ring

/-- Claim C5: at finalize, when every leak's facility_ID matches exactly one
site and all site totals start at zero (as set at simulation init), the sum
over leaks of days_active * rate equals the sum over sites of
total_emissions_kg after attribution. -/
theorem C5_finalize_total_emissions (sites : List FSite) (leaks : List Leak)
    (h0 : ∀ st ∈ sites, st.total_emissions_kg = 0)
    (h1 : ∀ l ∈ leaks, sites.countP (fun st => st.facility_ID == l.facility_ID) = 1) :
    total_emissions_sum (finalize_attribution leaks sites) = leak_emissions_sum leaks := by
  have hex : ∀ l ∈ leaks, ∃ st ∈ sites, st.facility_ID = l.facility_ID := by
    intro l hl
    have hpos : 0 < sites.countP (fun st => st.facility_ID == l.facility_ID) := by
      rw [h1 l hl]
      omega
    obtain ⟨st, hst, hp⟩ := List.countP_pos_iff.mp hpos
    exact ⟨st, hst, by simpa using hp⟩
  rw [finalize_sum leaks sites hex]
  have hz : total_emissions_sum sites = 0 := by
    rw [total_emissions_sum]
    apply List.sum_eq_zero
    intro x hx
    obtain ⟨st, hst, rfl⟩ := List.mem_map.mp hx
    exact h0 st hst
  rw [hz, zero_add]

/-- Witness for C5: two sites A and B with zero totals, a leak of rate 3
active for 2 days on A and a leak of rate 1 active for 5 days on B. -/
theorem C5_finalize_total_emissions_witness :
    total_emissions_sum
        (finalize_attribution
          [⟨"A_1", "A", 3, LStatus.active, 2, false, none, none, none, none, none, none, none⟩,
           ⟨"B_1", "B", 1, LStatus.repaired, 5, false, none, none, none, none, none, none, none⟩]
          [⟨"A", 0, 0, 0⟩, ⟨"B", 0, 0, 0⟩])
      = leak_emissions_sum
          [⟨"A_1", "A", 3, LStatus.active, 2, false, none, none, none, none, none, none, none⟩,
           ⟨"B_1", "B", 1, LStatus.repaired, 5, false, none, none, none, none, none, none, none⟩] :=
  C5_finalize_total_emissions
    [⟨"A", 0, 0, 0⟩, ⟨"B", 0, 0, 0⟩]
    [⟨"A_1", "A", 3, LStatus.active, 2, false, none, none, none, none, none, none, none⟩,
     ⟨"B_1", "B", 1, LStatus.repaired, 5, false, none, none, none, none, none, none, none⟩]
    (by decide) (by decide)

/-- A Forall₂ step from the left: every left member has a related right
member. -/
theorem forall2_mem_left {α β : Type} {r : α → β → Prop} {xs : List α} {ys : List β}
    (h : List.Forall₂ r xs ys) {a : α} (ha : a ∈ xs) : ∃ b ∈ ys, r a b := by
  induction h with
  | nil => simp at ha
  | cons hr _ ih =>
    rcases List.mem_cons.mp ha with rfl | hmem
    · exact ⟨_, List.mem_cons_self _ _, hr⟩
    · obtain ⟨b, hb, hrb⟩ := ih hmem
      exact ⟨b, List.mem_cons_of_mem _ hb, hrb⟩

/-- A Forall₂ step from the right: every right member has a related left
member. -/
theorem forall2_mem_right {α β : Type} {r : α → β → Prop} {xs : List α} {ys : List β}
    (h : List.Forall₂ r xs ys) {b : β} (hb : b ∈ ys) : ∃ a ∈ xs, r a b := by
  induction h with
  | nil => simp at hb
  | cons hr _ ih =>
    rcases List.mem_cons.mp hb with rfl | hmem
    · exact ⟨_, List.mem_cons_self _ _, hr⟩
    · obtain ⟨a, ha, hra⟩ := ih hmem
      exact ⟨a, List.mem_cons_of_mem _ ha, hra⟩

/-- Pointwise composition of two Forall₂ facts. -/
theorem forall2_comp {α β γ : Type} {r : α → β → Prop} {s : β → γ → Prop} {t : α → γ → Prop}
    (hcomp : ∀ a b c, r a b → s b c → t a c) :
    ∀ {xs : List α} {ys : List β} {zs : List γ},
      List.Forall₂ r xs ys → List.Forall₂ s ys zs → List.Forall₂ t xs zs := by
  intro xs ys zs h1
  induction h1 generalizing zs with
  | nil =>
    intro h2
    cases h2
    exact List.Forall₂.nil
  | cons hr hrest ih =>
    intro h2
    cases h2 with
    | cons hs hsrest =>
      exact List.Forall₂.cons (hcomp _ _ _ hr hs) (ih hsrest)

/-- A Forall₂ whose relation preserves a projection preserves the mapped
list. -/
theorem forall2_map_eq {α β γ : Type} {r : α → β → Prop} {f : α → γ} {g : β → γ}
    (h : ∀ a b, r a b → g b = f a) :
    ∀ {xs : List α} {ys : List β}, List.Forall₂ r xs ys → ys.map g = xs.map f := by
  intro xs ys hf
  induction hf with
  | nil => rfl
  | cons hr _ ih => simp [ih, h _ _ hr]

/-- Two members of a leak list with unique IDs and the same ID are equal. -/
theorem mem_id_unique {leaks : List Leak} (hnd : (leaks.map Leak.leak_ID).Nodup)
    {l1 l2 : Leak} (h1 : l1 ∈ leaks) (h2 : l2 ∈ leaks) (he : l1.leak_ID = l2.leak_ID) :
    l1 = l2 := by
  induction leaks with
  | nil => simp at h1
  | cons x rest ih =>
    rw [List.map_cons, List.nodup_cons] at hnd
    rcases List.mem_cons.mp h1 with rfl | hm1 <;> rcases List.mem_cons.mp h2 with rfl | hm2
    · rfl
    · exact absurd (he ▸ List.mem_map_of_mem Leak.leak_ID hm2) hnd.1
    · exact absurd (he ▸ List.mem_map_of_mem Leak.leak_ID hm1) hnd.1
    · exact ih hnd.2 hm1 hm2

/-- In a leak list with unique IDs, find? by a member's ID returns exactly
that member. -/
theorem find_by_id {leaks : List Leak} (hnd : (leaks.map Leak.leak_ID).Nodup)
    {l : Leak} (hm : l ∈ leaks) :
    leaks.find? (fun x => x.leak_ID == l.leak_ID) = some l := by
  induction leaks with
  | nil => simp at hm
  | cons x rest ih =>
    rw [List.map_cons, List.nodup_cons] at hnd
    by_cases hx : (x.leak_ID == l.leak_ID) = true
    · simp only [List.find?_cons, hx]
      rcases List.mem_cons.mp hm with rfl | hmem
      · rfl
      · exact absurd ((eq_of_beq hx) ▸ List.mem_map_of_mem Leak.leak_ID hmem) hnd.1
    · have hx2 : (x.leak_ID == l.leak_ID) = false := by
        simpa using hx
      simp only [List.find?_cons, hx2]
      rcases List.mem_cons.mp hm with rfl | hmem
      · simp at hx
      · exact ih hnd.2 hmem

/-- A successful repairTag either leaves the leak unchanged or marks it
repaired at its date_found. -/
theorem repairTag_ok_shape {today rd : ℤ} {methods : List (String × ℤ)} {l l2 : Leak}
    (h : repairTag today rd methods l = Except.ok l2) :
    l2 = l ∨ ∃ df, l.date_found = some df ∧ l2 = markRepaired today df l := by
  unfold repairTag at h
  split at h
  · split at h
    · cases h
    · rename_i df hdf
      split at h
      · cases h
      · rename_i c hfb
        split at h
        · cases h
        · rename_i rep hlk
          split at h
          · exact Or.inr ⟨df, hdf, ((Except.ok.injEq _ _).mp h).symm⟩
          · exact Or.inl ((Except.ok.injEq _ _).mp h).symm
  · split at h
    · cases h
    · rename_i df hdf
      split at h
      · exact Or.inr ⟨df, hdf, ((Except.ok.injEq _ _).mp h).symm⟩
      · exact Or.inl ((Except.ok.injEq _ _).mp h).symm

/-- repairTag preserves the leak ID. -/
theorem repairTag_ok_id {today rd : ℤ} {methods : List (String × ℤ)} {l l2 : Leak}
    (h : repairTag today rd methods l = Except.ok l2) : l2.leak_ID = l.leak_ID := by
  rcases repairTag_ok_shape h with rfl | ⟨df, _, rfl⟩
  · rfl
  · rfl

/-- Characterization of a successful repairTagIfMatch. -/
theorem repairTagIfMatch_ok_shape {today rd : ℤ} {methods : List (String × ℤ)}
    {id : String} {l l2 : Leak}
    (h : repairTagIfMatch today rd methods id l = Except.ok l2) :
    (l.leak_ID = id ∧ repairTag today rd methods l = Except.ok l2) ∨
      (l.leak_ID ≠ id ∧ l2 = l) := by
  rw [repairTagIfMatch] at h
  by_cases hid : l.leak_ID = id
  · rw [if_pos hid] at h
    exact Or.inl ⟨hid, h⟩
  · rw [if_neg hid] at h
    exact Or.inr ⟨hid, ((Except.ok.injEq _ _).mp h).symm⟩

/-- A successful updateLeaks applies f pointwise. -/
theorem updateLeaks_ok_forall2 {f : Leak → Except PyErr Leak} :
    ∀ {xs ys : List Leak}, updateLeaks f xs = Except.ok ys →
      List.Forall₂ (fun a b => f a = Except.ok b) xs ys := by
  intro xs
  induction xs with
  | nil =>
    intro ys h
    rw [updateLeaks] at h
    cases h
    exact List.Forall₂.nil
  | cons x rest ih =>
    intro ys h
    rw [updateLeaks] at h
    cases hfx : f x with
    | error e => rw [hfx] at h; cases h
    | ok b =>
      rw [hfx] at h
      cases hrest : updateLeaks f rest with
      | error e => rw [hrest] at h; cases h
      | ok bs =>
        rw [hrest] at h
        cases h
        exact List.Forall₂.cons hfx (ih hrest)

/-- A successful processTags over a duplicate-free tag pool rewrites each
leak the pool references through repairTag and leaves the others unchanged. -/
theorem processTags_ok_forall2 {today rd : ℤ} {methods : List (String × ℤ)} :
    ∀ {tags : List String} {leaks leaks2 : List Leak}, tags.Nodup →
      processTags today rd methods tags leaks = Except.ok leaks2 →
      List.Forall₂
        (fun l l2 => (l.leak_ID ∈ tags ∧ repairTag today rd methods l = Except.ok l2) ∨
          (l.leak_ID ∉ tags ∧ l2 = l))
        leaks leaks2 := by
  intro tags
  induction tags with
  | nil =>
    intro leaks leaks2 _ h
    rw [processTags] at h
    cases h
    refine List.forall₂_same.mpr ?_
    intro x _
    exact Or.inr ⟨by simp, rfl⟩
  | cons id rest ih =>
    intro leaks leaks2 hnd h
    rw [processTags] at h
    cases hmid : updateLeaks (repairTagIfMatch today rd methods id) leaks with
    | error e => rw [hmid] at h; cases h
    | ok mid =>
      rw [hmid] at h
      have h1 := updateLeaks_ok_forall2 hmid
      have h2 := ih (List.nodup_cons.mp hnd).2 h
      have hidrest : id ∉ rest := (List.nodup_cons.mp hnd).1
      refine forall2_comp ?_ h1 h2
      intro a b c hr hs
      rcases repairTagIfMatch_ok_shape hr with ⟨hid, hok⟩ | ⟨hid, rfl⟩
      · have hbid : b.leak_ID = a.leak_ID := repairTag_ok_id hok
        rcases hs with ⟨hin, _⟩ | ⟨_, rfl⟩
        · have : id ∈ rest := by
            rw [← hid, ← hbid]
            exact hin
          exact absurd this hidrest
        · exact Or.inl ⟨by simp [hid], hok⟩
      · rcases hs with ⟨hin, hok⟩ | ⟨hnin, rfl⟩
        · exact Or.inl ⟨List.mem_cons_of_mem _ hin, hok⟩
        · refine Or.inr ⟨?_, rfl⟩
          simp only [List.mem_cons]
          rintro (h | h)
          · exact hid h
          · exact hnin h

/-- processTags preserves the leak_ID column. -/
theorem processTags_map_id {today rd : ℤ} {methods : List (String × ℤ)}
    {tags : List String} {leaks leaks2 : List Leak} (hnd : tags.Nodup)
    (h : processTags today rd methods tags leaks = Except.ok leaks2) :
    leaks2.map Leak.leak_ID = leaks.map Leak.leak_ID := by
  refine forall2_map_eq ?_ (processTags_ok_forall2 hnd h)
  intro a b hr
  rcases hr with ⟨_, hok⟩ | ⟨_, rfl⟩
  · exact repairTag_ok_id hok
  · rfl

/-- One tagging event preserves well-formedness of the simulation state. -/
theorem visit_site_tag_wf (today : ℤ) (company : String) (crew : ℤ) (id : String)
    (s : SimState) (h : SimWF s) : SimWF (visit_site_tag today company crew id s) := by
  obtain ⟨hnd, hnt, hinv⟩ := h
  rw [visit_site_tag]
  split
  · exact ⟨hnd, hnt, hinv⟩
  · rename_i l hf
    split
    · rename_i hcond
      have hlmem : l ∈ s.leaks := List.mem_of_find?_eq_some hf
      have hlid : (l.leak_ID == id) = true := by
        have h2 := List.find?_some hf
        simpa using h2
      have hlid2 : l.leak_ID = id := eq_of_beq hlid
      have hstat : l.status = LStatus.active := by
        simp only [Bool.and_eq_true, beq_iff_eq] at hcond
        exact hcond.1
      have htag : l.tagged = false := by
        simp only [Bool.and_eq_true, Bool.not_eq_true'] at hcond
        exact hcond.2
      have hmapid : (s.leaks.map fun l2 =>
          if l2.leak_ID == id then
            { l2 with
              tagged := true
              date_tagged := some today
              tagged_by_company := some company
              tagged_by_crew := some crew }
          else l2).map Leak.leak_ID = s.leaks.map Leak.leak_ID := by
        rw [List.map_map]
        refine List.map_congr_left ?_
        intro x _
        by_cases hx : (x.leak_ID == id) = true
        · simp [Function.comp, hx]
        · simp only [Bool.not_eq_true] at hx
          simp [Function.comp, hx]
      have hnotin : id ∉ s.tags := by
        intro hmem
        obtain ⟨l3, hl3mem, hl3id, hl3tag, _⟩ := hinv id hmem
        have : l3 = l := mem_id_unique hnd hl3mem hlmem (by rw [hl3id, hlid2])
        rw [this] at hl3tag
        rw [htag] at hl3tag
        cases hl3tag
      refine ⟨?_, ?_, ?_⟩
      · rw [hmapid]
        exact hnd
      · simp [List.nodup_append, hnt, hnotin]
      · intro id0 hid0
        simp only [List.mem_append, List.mem_singleton] at hid0
        rcases hid0 with hid0 | rfl
        · obtain ⟨l0, hl0mem, hl0id, hl0tag, hl0stat⟩ := hinv id0 hid0
          refine ⟨_, List.mem_map_of_mem _ hl0mem, ?_⟩
          by_cases hx : id0 = id
          · simp [hx, hl0id, hl0tag, hl0stat]
          · simp [hx, hl0id, hl0tag, hl0stat]
        · refine ⟨_, List.mem_map_of_mem _ hlmem, ?_⟩
          simp [hlid, hlid2, hstat]
    · exact ⟨hnd, hnt, hinv⟩

/-- A whole day of tagging events preserves well-formedness. -/
theorem applyTagOps_wf (ops : List TagOp) (s : SimState) (h : SimWF s) :
    SimWF (applyTagOps ops s) := by
  induction ops generalizing s with
  | nil => exact h
  | cons op rest ih =>
    rw [applyTagOps] at *
    rw [List.foldl_cons]
    exact ih _ (visit_site_tag_wf op.today op.company op.crew op.id s h)

/-- Claim C9: starting from a well-formed state, after any sequence of OGI
tagging events followed by a successful repair sweep, every element of the
tag pool references a leak in the leak pool with tagged = true and
status = active. -/
theorem C9_tags_subset_invariant (s : SimState) (ops : List TagOp) (today rd : ℤ)
    (methods : List (String × ℤ)) (s2 : SimState) (hwf : SimWF s)
    (hrep : repair_leaks today rd methods (applyTagOps ops s) = Except.ok s2) :
    TagsInv s2 := by
  obtain ⟨hnd1, hnt1, hinv1⟩ := applyTagOps_wf ops s hwf
  rw [repair_leaks] at hrep
  cases hpt : processTags today rd methods (applyTagOps ops s).tags (applyTagOps ops s).leaks with
  | error e => rw [hpt] at hrep; cases hrep
  | ok leaks2 =>
    rw [hpt] at hrep
    have hs2 : s2 = SimState.mk leaks2
        ((applyTagOps ops s).tags.filter (leakActiveInList leaks2)) :=
      ((Except.ok.injEq _ _).mp hrep).symm
    subst hs2
    have hf2 := processTags_ok_forall2 hnt1 hpt
    intro id hid
    simp only [List.mem_filter] at hid
    obtain ⟨hid1, hact⟩ := hid
    rw [leakActiveInList] at hact
    split at hact
    · rename_i l2 hfind
      have hact2 : l2.status = LStatus.active := eq_of_beq hact
      have hl2mem : l2 ∈ leaks2 := List.mem_of_find?_eq_some hfind
      have hl2id : l2.leak_ID = id := by
        have h3 := List.find?_some hfind
        exact eq_of_beq (by simpa using h3)
      obtain ⟨l, hlmem, hrel⟩ := forall2_mem_right hf2 hl2mem
      rcases hrel with ⟨hin, hok⟩ | ⟨hnin, rfl⟩
      · rcases repairTag_ok_shape hok with rfl | ⟨df, hdf, rfl⟩
        · obtain ⟨l3, hl3mem, hl3id, hl3tag, _⟩ := hinv1 id hid1
          have he3 : l3 = l2 := mem_id_unique hnd1 hl3mem hlmem (by rw [hl3id, hl2id])
          exact ⟨l2, hl2mem, hl2id, by rw [← he3]; exact hl3tag, hact2⟩
        · simp [markRepaired] at hact2
      · exact absurd (hl2id ▸ hid1) hnin
    · cases hact

/-- Witness for C9: one OGI-found leak is tagged on day 0 and swept on day 1
under repair_delay 14 and reporting_delay 2 (so no repair happens yet). -/
theorem C9_tags_subset_invariant_witness :
    TagsInv (SimState.mk
      [⟨"A_1", "A", 1, LStatus.active, 0, true, some 0, some "OGI",
        none, none, some 0, some "OGI", some 1⟩]
      ["A_1"]) :=
  C9_tags_subset_invariant
    (SimState.mk
      [⟨"A_1", "A", 1, LStatus.active, 0, false, some 0, some "OGI",
        none, none, none, none, none⟩]
      [])
    [⟨0, "OGI", 1, "A_1"⟩] 1 14 [("OGI", 2)]
    (SimState.mk
      [⟨"A_1", "A", 1, LStatus.active, 0, true, some 0, some "OGI",
        none, none, some 0, some "OGI", some 1⟩]
      ["A_1"])
    (by refine ⟨by decide, by decide, ?_⟩
        intro id hid
        simp at hid)
    (by rfl)

/-- Claim C4: the repair sweep is claimed to repair each tagged leak on the
first day with today - date_found at least repair_delay + reporting_delay,
yielding date_repaired = date_tagged + 16 days in the repair_delay = 14,
reporting_delay = 2 scenario.  On the code the scenario instead raises
TypeError: leaks are created with date_found and found_by_company None
(ldar_sim.py lines 146, 149), and the only tag-pool writer,
OGI_crew.visit_site (lines 352-357), sets date_tagged and tagged_by_company
but never date_found — the first conjunct shows tagging a fresh leak on
day 0 leaves date_found none while date_tagged = some 0.  The sweep then
takes the non-operator branch (None differs from 'operator') and evaluates
current_date - date_found with date_found None (ldar_sim.py line 270), so
the day-16 sweep raises TypeError instead of repairing — the second
conjunct. -/
theorem C4_repair_leaks_code_bug :
    applyTagOps [⟨0, "OGI", 1, "A_1"⟩]
        (SimState.mk
          [⟨"A_1", "A", 1, LStatus.active, 0, false, none, none, none, none,
            none, none, none⟩]
          [])
      = SimState.mk
          [⟨"A_1", "A", 1, LStatus.active, 0, true, none, none, none, none,
            some 0, some "OGI", some 1⟩]
          ["A_1"] ∧
    repair_leaks 16 14 [("OGI", 2)]
        (SimState.mk
          [⟨"A_1", "A", 1, LStatus.active, 0, true, none, none, none, none,
            some 0, some "OGI", some 1⟩]
          ["A_1"])
      = Except.error PyErr.typeError := by
  exact ⟨by rfl, by rfl⟩

end LdarSim
